import Mathlib

/-!
Verification of the standardized-omop ETL pipeline against its design
specification.  The per-instrument producer scripts under
`src/table_scripts/` and the pipeline driver
`src/pipeline_process_subtables_to_final.py` are embedded as executable
Lean definitions.  The helper module `helpers.py` (with
`relative_day_to_date`, `get_visit_occurrence_id` and
`check_missing_concept_ids`) and the five second-stage scripts are not
part of the repository snapshot; where a claim depends on them they are
modelled from the specification, as marked in the doc comments.
-/

/-! ## Calendar arithmetic

The Python scripts use `datetime` objects: the index date plus a
relative day offset, rendered with `strftime("%Y-%m-%d")`.  We model a
calendar date as the number of days since the civil epoch 1970-01-01
(Howard Hinnant's civil-calendar algorithms, written with floor
division) and implement the `%Y-%m-%d` rendering. -/

/-- Day count since 1970-01-01 of the Gregorian date `(y, m, d)`. -/
def daysFromCivil (y m d : Int) : Int :=
  let y' := if m ≤ 2 then y - 1 else y
  let era := y'.fdiv 400
  let yoe := y' - era * 400
  let mp := (m + 9).fmod 12
  let doy := (153 * mp + 2).fdiv 5 + d - 1
  let doe := yoe * 365 + yoe.fdiv 4 - yoe.fdiv 100 + doy
  era * 146097 + doe - 719468

/-- Gregorian date `(y, m, d)` of the day count `z` since 1970-01-01. -/
def civilFromDays (z : Int) : Int × Int × Int :=
  let z' := z + 719468
  let era := z'.fdiv 146097
  let doe := z' - era * 146097
  let yoe := (doe - doe.fdiv 1460 + doe.fdiv 36524 - doe.fdiv 146096).fdiv 365
  let y := yoe + era * 400
  let doy := doe - (365 * yoe + yoe.fdiv 4 - yoe.fdiv 100)
  let mp := (5 * doy + 2).fdiv 153
  let d := doy - (153 * mp + 2).fdiv 5 + 1
  let m := mp + (if mp < 10 then 3 else -9)
  (y + (if m ≤ 2 then 1 else 0), m, d)

/-- Left-pad the decimal rendering of a nonnegative integer with zeros. -/
def padZeros (width : Nat) (n : Int) : String :=
  let s := toString n.natAbs
  if s.length ≥ width then s
  else String.mk (List.replicate (width - s.length) '0') ++ s

/-- The `strftime("%Y-%m-%d")` rendering of a day count. -/
def formatDate (z : Int) : String :=
  let c := civilFromDays z
  padZeros 4 c.1 ++ "-" ++ padZeros 2 c.2.1 ++ "-" ++ padZeros 2 c.2.2

/-- The index date 2016-01-01 used by every producer script. -/
def indexDate2016 : Int := daysFromCivil 2016 1 1

/-! ## Raw day offsets and the Date Resolver -/

/-- A raw value of a day-offset column as read by pandas: a present
integer, a missing cell (`NaN` / pandas `NA`), or a token that cannot
be parsed as an integer. -/
inductive RawOffset where
  | missing : RawOffset
  | intVal (n : Int) : RawOffset
  | unparseable (s : String) : RawOffset
deriving DecidableEq, Repr

/-- Modelled from the spec: `relative_day_to_date` from the absent
`helpers` module (§4.1 Date Resolver).  A missing offset yields no
date; an integer offset `n` yields the index date plus `n` days; an
input that cannot be parsed as an integer signals `InvalidOffset`,
which every caller in `src/table_scripts` observes as a `None` result
(`if visit_date is None: log and skip`). -/
def relative_day_to_date : RawOffset → Int → Option Int
  | .missing, _ => none
  | .intVal n, indexDate => some (indexDate + n)
  | .unparseable _, _ => none

/-! ## Visit Registry (spec-modelled)

`get_visit_occurrence_id` lives in the absent `helpers` module; the
producer scripts only import it.  We model the registry from §4.4 of
the spec: a `(person_id, calendar_date) → visit_occurrence_id` map
plus a monotone counter, with `resolve` returning the sentinel
"no visit" reference (here `none`) for a missing date. -/

/-- Association lookup on the registry map. -/
def lookupPair : List ((String × Int) × Nat) → String × Int → Option Nat
  | [], _ => none
  | (k, v) :: rest, key => if k = key then some v else lookupPair rest key

/-- Modelled from the spec: the Visit Registry state of §4.4 — the
`(person_id, calendar_date) → visit_occurrence_id` map and a
monotonically increasing id counter. -/
structure VisitRegistry where
  table : List ((String × Int) × Nat)
  counter : Nat
deriving DecidableEq, Repr

/-- Modelled from the spec: `resolve(person_id, calendar_date)` of
§4.4.  A present pair returns the existing id unchanged; a new pair
allocates the next counter value; a missing date returns the sentinel
"no visit" reference (`none`) and never allocates. -/
def VisitRegistry.resolve (r : VisitRegistry) (p : String) (d : Option Int) :
    Option Nat × VisitRegistry :=
  match d with
  | none => (none, r)
  | some day =>
    match lookupPair r.table (p, day) with
    | some id => (some id, r)
    | none =>
      (some r.counter,
       { table := ((p, day), r.counter) :: r.table, counter := r.counter + 1 })

/-- The type of the `get_visit_occurrence_id` helper as the producer
scripts use it: a participant id and the raw day-offset value give a
visit reference.  The helper is absent from the repository, so the
producers are embedded parametrically over it; per §4.4 resolution is
idempotent, which justifies a pure function for one producer run. -/
def Gvoi : Type := String → RawOffset → Option Nat

/-! ## Concept Validator (spec-modelled)

`check_missing_concept_ids` lives in the absent `helpers` module.  We
model §4.2: every (concept id, concept name) cell whose id is not in
the reference vocabulary becomes the sentinel pair
`(0, "No Matching Concept")` with a warning keyed by the offending
(column, value); known ids pass through untouched.  Per §6, vocabulary
concept ids are string-typed. -/

/-- Association lookup in the reference vocabulary. -/
def lookupVocab : List (String × String) → String → Option String
  | [], _ => none
  | (k, v) :: rest, key => if k = key then some v else lookupVocab rest key

/-- Modelled from the spec: validation of one (concept id, concept
name) cell from §4.2.  Returns the possibly substituted cell and an
optional warning keyed by (column, offending value). -/
def validateCell (vocab : List (String × String)) (col : String)
    (cell : String × String) : (String × String) × Option (String × String) :=
  match lookupVocab vocab cell.1 with
  | some _ => (cell, none)
  | none => (("0", "No Matching Concept"), some (col, cell.1))

/-- Modelled from the spec: `check_missing_concept_ids` over one
concept column — every cell validated in place, warnings collected;
the validator is total, so it never fails the run. -/
def check_missing_concept_ids (vocab : List (String × String)) (col : String)
    (cells : List (String × String)) :
    List (String × String) × List (String × String) :=
  (cells.map (fun c => (validateCell vocab col c).1),
   cells.filterMap (fun c => (validateCell vocab col c).2))

/-! ## Pipeline driver (`src/pipeline_process_subtables_to_final.py`) -/

/-- The `table_scripts` list of the driver, lines 47–65. -/
def table_scripts : List String :=
  ["aalsdxfx--observation.py",
   "aalshxfx--condition_occurrence.py",
   "aalshxfx--observation.py",
   "als_gene_mutations--measurement.py",
   "alsfrs_r--observation.py",
   "answer_als_medications_log--drug_exposure.py",
   "auxiliary_chemistry_labs--measurement.py",
   "demographics--person.py",
   "environmental_questionnaire--observation.py",
   "family_history_log--observation.py",
   "medical_history--condition_occurrence.py",
   "medical_history--device_exposure.py",
   "medical_history--drug_exposure.py",
   "medical_history--procedure_occurrence.py",
   "mortality--death.py",
   "neurolog--condition_occurrence.py",
   "vital_signs--measurement.py"]

/-- The `second_scripts` list of the driver, lines 67–73: the order in
which the second-stage scripts are launched. -/
def second_scripts : List String :=
  ["combine_subtables.py",
   "create_table_ids.py",
   "person_id_map.py",
   "create_visits.py",
   "transform_ids.py"]

/-- Events of the driver's execution trace. -/
inductive PEvent where
  | start (script : String) : PEvent
  | finish (script : String) : PEvent
deriving DecidableEq, Repr

/-- The trace of `subprocess.run(..., check=True)` in a `for` loop
(driver lines 107–111): each script starts, runs to completion, and
only then does the next script start. -/
def runScripts : List String → List PEvent
  | [] => []
  | s :: rest => .start s :: .finish s :: runScripts rest

/-- Outcome of `transform_table_ids` for one table. -/
inductive TableIdOutcome where
  | skippedEmpty (tableName : String) : TableIdOutcome
  | processed : TableIdOutcome
deriving DecidableEq, Repr

/-- `transform_table_ids` (driver lines 75–88) embedded over the input
file's content: a zero-byte file is skipped after the logged warning
and the function returns normally; otherwise the file is handed to the
CSV reader (`pd.read_csv`, an external library, taken as a parameter;
the remainder of the function body is elided in the source). -/
def transform_table_ids (readCsv : String → Except String Unit)
    (tableName : String) (content : String) : Except String TableIdOutcome :=
  if content.length = 0 then
    .ok (.skippedEmpty tableName)
  else
    (readCsv content).map (fun _ => .processed)

/-! ## `als_gene_mutations--measurement.py`

Provenance strings interpolate numeric cell values; the Python float
and `Int64` renderings are abstracted by Lean's `toString` of the
embedded value, which no claim inspects. -/

/-- Whether the first character list begins the second. -/
def startsWithChars : List Char → List Char → Bool
  | [], _ => true
  | _ :: _, [] => false
  | p :: ps, c :: cs => (p = c) && startsWithChars ps cs

/-- Whether the pattern occurs as a contiguous substring (Python's
`in` on strings). -/
def occursIn (pat : List Char) : List Char → Bool
  | [] => pat.isEmpty
  | c :: cs => startsWithChars pat (c :: cs) || occursIn pat cs

/-- Fuel-indexed body of `stringReplace`; the fuel is the scanned
list's length, so it never runs out. -/
def replaceAux (pat rep : List Char) : Nat → List Char → List Char
  | _, [] => []
  | 0, s => s
  | fuel + 1, c :: cs =>
    if startsWithChars pat (c :: cs) then
      rep ++ replaceAux pat rep fuel (List.drop pat.length (c :: cs))
    else c :: replaceAux pat rep fuel cs

/-- Python's `str.replace`: every occurrence of the (nonempty) pattern
replaced. -/
def stringReplace (s pat rep : String) : String :=
  String.mk (replaceAux pat.data rep.data s.data.length s.data)

/-- One entry of the `gene_mappings` dictionary (lines 38–105). -/
structure GeneMapping where
  conceptId : Int
  conceptName : String
  sourceMeaning : String
  testVar : String
deriving DecidableEq, Repr

/-- The `gene_mappings` dictionary of
`als_gene_mutations_to_measurement`, in source order. -/
def gene_mappings : List (String × GeneMapping) :=
  [("angnd", ⟨35961859, "ANG (angiogenin) gene variant measurement",
    "ANG Mutation", "ang"⟩),
   ("c9orfnd", ⟨35954626,
    "C9orf72 (C9orf72-SMCR8 complex subunit) gene variant measurement",
    "C9ORF72 Mutation", "c9orf72"⟩),
   ("fusnd", ⟨19643404, "FUS gene rearrangement measurement",
    "FUS Mutation", "fus"⟩),
   ("mutotsp", ⟨0, "No Matching Concept",
    "Other Mutation: positive", "mutot"⟩),
   ("prgrnnd", ⟨35951629, "GRN (granulin precursor) gene variant measurement",
    "PROGRANULIN Mutation", "progran"⟩),
   ("setxnd", ⟨35958907, "SETX (senataxin) gene variant measurement",
    "SETX Mutation", "setx"⟩),
   ("sod1nd", ⟨35948140,
    "SOD1 (superoxide dismutase 1) gene variant measurement",
    "SOD1 Mutation", "sod1"⟩),
   ("taund", ⟨35946715,
    "MAPT (microtubule associated protein tau) gene variant measurement",
    "TAU Mutation", "tau"⟩),
   ("tdp43nd", ⟨35964178,
    "TARDBP (TAR DNA binding protein) gene variant measurement",
    "TDP-43 Mutation", "tdp43"⟩),
   ("vapbnd", ⟨35956055,
    "VAPB (VAMP associated protein B and C) gene variant measurement",
    "VAPB Mutation", "vapb"⟩),
   ("vcpnd", ⟨35958302,
    "VCP (valosin containing protein) gene variant measurement",
    "VCP Mutation", "vcp"⟩)]

/-- One source row of `als_gene_mutations.csv`: the participant, the
`Visit_Date` offset (read with `dtype Int64`), the per-gene
not-done flags and test results (`none` models an absent column or a
`NaN` cell), and the free-text `sod1muta` field. -/
structure GeneRow where
  participantId : String
  visitDate : Int
  ndValue : String → Option Int
  testValue : String → Option Int
  sod1muta : Option String

/-- One output row of the gene-mutation measurement table; the
provisional visit reference is the composite string the script
writes. -/
structure GeneMeasRow where
  personId : String
  measurementConceptId : Int
  measurementConceptName : String
  measurementSourceValue : String
  measurementDate : String
  measurementTypeConceptId : Int
  valueAsConceptId : Int
  valueAsConceptName : String
  valueSourceValue : String
  visitOccurrenceId : String
deriving DecidableEq, Repr

/-- The per-gene emission of `als_gene_mutations_to_measurement`
(lines 116–163): skip when not tested (`nd = 1`), when the test
result is absent, or when the result is not in {1, 2}; otherwise emit
one measurement whose `visit_occurrence_id` is the composite
`"{person_id}_{Visit_Date}"` built from the unconverted
`Visit_Date`. -/
def geneEmit (row : GeneRow) (visitDateStr : String) (sourceVar : String)
    (m : GeneMapping) : Option GeneMeasRow :=
  if row.ndValue sourceVar = some 1 then none
  else
    match row.testValue m.testVar with
    | none => none
    | some tv =>
      if row.ndValue sourceVar = some 0 ∧ (tv = 1 ∨ tv = 2) then
        let resultText := if tv = 1 then "Positive" else "Negative"
        let sourceParts :=
          ["als_gene_mutations+" ++ m.testVar ++ ": " ++ toString tv ++
           " (" ++ resultText ++ ")"] ++
          (if sourceVar = "sod1nd" then
             match row.sod1muta with
             | some muta => ["als_gene_mutations+sod1muta: " ++ muta]
             | none => []
           else [])
        let geneName := stringReplace m.sourceMeaning " Mutation" ""
        some
          { personId := row.participantId,
            measurementConceptId := m.conceptId,
            measurementConceptName := m.conceptName,
            measurementSourceValue :=
              "als_gene_mutations+" ++ sourceVar ++ " (" ++ geneName ++ ")",
            measurementDate := visitDateStr,
            measurementTypeConceptId := 32851,
            valueAsConceptId := if tv = 1 then 9191 else 9189,
            valueAsConceptName := resultText,
            valueSourceValue := String.intercalate " | " sourceParts,
            visitOccurrenceId :=
              row.participantId ++ "_" ++ toString row.visitDate }
      else none

/-- One iteration of the row loop of
`als_gene_mutations_to_measurement` (lines 108–163): the visit date
is normalized through the Date Resolver only for `measurement_date`;
the integral offset makes the resolver total here, so the `none`
branch is unreachable. -/
def als_gene_mutations_row (indexDate : Int) (row : GeneRow) :
    List GeneMeasRow :=
  match relative_day_to_date (.intVal row.visitDate) indexDate with
  | none => []
  | some vd =>
    gene_mappings.filterMap (fun p => geneEmit row (formatDate vd) p.1 p.2)

/-- `als_gene_mutations_to_measurement` over the full source table. -/
def als_gene_mutations_to_measurement (indexDate : Int)
    (rows : List GeneRow) : List GeneMeasRow :=
  rows.flatMap (als_gene_mutations_row indexDate)

/-! ## `vital_signs--measurement.py`

Numeric measurement values are embedded as rationals; the fuzzy
string-similarity ratio of Python's `difflib.SequenceMatcher` (an
external library) is taken as a parameter `ratio`. -/

/-- `is_similar_to_temporal` (lines 20–39): lowercase the text, accept
a direct substring match on "temporal", otherwise compare the fuzzy
similarity ratio against 0.8. -/
def is_similar_to_temporal (ratio : String → String → ℚ) (text : String) :
    Bool :=
  let t := text.toLower
  if occursIn "temporal".data t.data then true
  else decide (ratio t "temporal" > 8 / 10)

/-- The `temprt_mapping` dictionary (line 65). -/
def temprtMapping : Int → Option String
  | 1 => some "Axillary"
  | 2 => some "Oral"
  | 3 => some "Rectal"
  | 4 => some "Tympanic"
  | _ => none

/-- The temperature `concept_ids` dictionary (lines 66–72). -/
def tempConceptIds : String → Option Int
  | "Axillary" => some 4188706
  | "Oral" => some 3006322
  | "Rectal" => some 3022060
  | "Tympanic" => some 4215364
  | "Temporal" => some 46235152
  | _ => none

/-- The temperature `unit_concept_ids` dictionary (line 73):
1 is Fahrenheit, 2 is Celsius. -/
def tempUnitConceptIds : Int → Option Int
  | 1 => some 9289
  | 2 => some 586323
  | _ => none

/-- The blood-pressure `value_as_concept_ids` dictionary
(lines 78–82). -/
def bpPositionConceptIds : Int → Option Int
  | 1 => some 4060833
  | 2 => some 4060834
  | 3 => some 4060832
  | _ => none

/-- The `value_as_concept_name` conditional of the blood-pressure
blocks (a missing `bppos` falls to the final `else`, like `NaN` in
Python comparisons). -/
def bpPosName (bppos : Option Int) : String :=
  if bppos = some 1 then "Standing blood pressure"
  else if bppos = some 2 then "Sitting blood pressure"
  else "Lying blood pressure"

/-- The position label interpolated into `value_source_value`. -/
def bpPosLabel (bppos : Option Int) : String :=
  if bppos = some 1 then "Standing"
  else if bppos = some 2 then "Sitting"
  else "Supine"

/-- The weight `unit_concept_ids` dictionary (line 97). -/
def weightUnitConceptIds : Int → Option Int
  | 1 => some 8739
  | 2 => some 9529
  | _ => none

/-- The height `unit_concept_ids` dictionary (line 101). -/
def heightUnitConceptIds : Int → Option Int
  | 1 => some 9330
  | 2 => some 8582
  | _ => none

/-- One source row of `vital_signs.csv`; `none` models a `NaN` cell. -/
structure VitalRow where
  participantId : String
  vsdt : RawOffset
  temp : Option ℚ
  temprt : Option Int
  temprtsp : Option String
  tempu : Option Int
  bpsys : Option ℚ
  bpdias : Option ℚ
  bppos : Option Int
  hr : Option ℚ
  rr : Option ℚ
  weight : Option ℚ
  weightu : Option Int
  height : Option ℚ
  heightu : Option Int
  bmi : Option ℚ

/-- One output measurement row (the `required_columns` of lines
402–417; columns a block does not set are `none`). -/
structure MeasRow where
  personId : String
  measurementConceptId : Int
  measurementConceptName : String
  measurementSourceValue : String
  measurementDate : String
  measurementTypeConceptId : Int
  valueAsNumber : Option ℚ
  valueAsConceptId : Option Int
  valueAsConceptName : Option String
  valueSourceValue : String
  unitConceptId : Option Int
  unitConceptName : Option String
  unitSourceValue : Option String
  visitOccurrenceId : Option Nat
deriving DecidableEq

/-- The warnings the vital-signs transformer logs. -/
inductive VWarn where
  | defaultDate (personId : String) : VWarn
  | invalidVsdt (personId raw : String) : VWarn
  | cannotInferUnits (value : ℚ) : VWarn
  | invalidTempUnit (tempu : Int) : VWarn
  | unrecognizedTempType (t : Option String) : VWarn
deriving DecidableEq

/-- Rendering of a raw offset cell into a log message. -/
def rawRepr : RawOffset → String
  | .missing => "<NA>"
  | .intVal n => toString n
  | .unparseable s => s

/-- The `temp_type` computation (lines 132–149): first the `temprt`
integer mapping, then the fuzzy `temprtsp` check for "Temporal". -/
def tempTypeOf (ratio : String → String → ℚ) (row : VitalRow) :
    Option String :=
  match row.temprt.bind temprtMapping with
  | some t => some t
  | none =>
    match row.temprtsp with
    | some s => if is_similar_to_temporal ratio s then some "Temporal" else none
    | none => none

/-- Outcome of the temperature block for one row. -/
inductive TempOutcome where
  | noValue : TempOutcome
  | emit (m : MeasRow) : TempOutcome
  | skipRecord (w : VWarn) : TempOutcome
  | unrecognized (t : Option String) : TempOutcome

/-- The temperature measurement row (lines 202–221). -/
def mkTempRow (gvoi : Gvoi) (row : VitalRow) (vds : String)
    (ttName : String) (conceptId : Int) (unitConceptId : Int)
    (unitName unitSource : String) (v : ℚ) : MeasRow :=
  { personId := row.participantId,
    measurementConceptId := conceptId,
    measurementConceptName :=
      if ttName ≠ "Temporal" then ttName ++ " temperature"
      else "Body temperature - Temporal artery",
    measurementSourceValue :=
      "vital_signs+temp (" ++ ttName ++ " Temperature)",
    measurementDate := vds,
    measurementTypeConceptId := 32851,
    valueAsNumber := some v,
    valueAsConceptId := none,
    valueAsConceptName := none,
    valueSourceValue :=
      "vital_signs+temp (" ++ ttName ++ "): " ++ toString v,
    unitConceptId := some unitConceptId,
    unitConceptName := some unitName,
    unitSourceValue := some unitSource,
    visitOccurrenceId := gvoi row.participantId row.vsdt }

/-- The temperature block (lines 127–224): unit inference from the
value range when `tempu` is missing, the `tempu` dictionary lookup
otherwise, and `continue` (dropping the whole record) when neither
succeeds. -/
def tempBlock (ratio : String → String → ℚ) (gvoi : Gvoi) (row : VitalRow)
    (vds : String) : TempOutcome :=
  match row.temp with
  | none => .noValue
  | some v =>
    match tempTypeOf ratio row with
    | none => .unrecognized none
    | some ttName =>
      match tempConceptIds ttName with
      | none => .unrecognized (some ttName)
      | some conceptId =>
        match row.tempu with
        | none =>
          if 35 ≤ v ∧ v ≤ 40 then
            .emit (mkTempRow gvoi row vds ttName conceptId 586323
              "degree Celsius" "C" v)
          else if 95 ≤ v ∧ v ≤ 104 then
            .emit (mkTempRow gvoi row vds ttName conceptId 9289
              "degree Fahrenheit" "F" v)
          else .skipRecord (.cannotInferUnits v)
        | some u =>
          match tempUnitConceptIds u with
          | none => .skipRecord (.invalidTempUnit u)
          | some uc =>
            .emit (mkTempRow gvoi row vds ttName conceptId uc
              (if u = 1 then "degree Fahrenheit" else "degree Celsius")
              (if u = 1 then "F" else "C") v)

/-- The systolic blood-pressure block (lines 227–254). -/
def bpsysBlock (gvoi : Gvoi) (row : VitalRow) (vds : String) :
    List MeasRow :=
  match row.bpsys with
  | none => []
  | some v =>
    [{ personId := row.participantId,
       measurementConceptId := 4152194,
       measurementConceptName := "Systolic blood pressure",
       measurementSourceValue :=
         "vital_signs+bpsys (Systolic Blood Pressure)",
       measurementDate := vds,
       measurementTypeConceptId := 32851,
       valueAsNumber := some v,
       valueAsConceptId := row.bppos.bind bpPositionConceptIds,
       valueAsConceptName := some (bpPosName row.bppos),
       valueSourceValue :=
         "vital_signs+bpsys: " ++ toString v ++ " | vital_signs+bppos (" ++
         bpPosLabel row.bppos ++ "): " ++
         (match row.bppos with | some n => toString n | none => "nan"),
       unitConceptId := some 37546954,
       unitConceptName := some "mmHg",
       unitSourceValue := some "mmHG",
       visitOccurrenceId := gvoi row.participantId row.vsdt }]

/-- The diastolic blood-pressure block (lines 256–283). -/
def bpdiasBlock (gvoi : Gvoi) (row : VitalRow) (vds : String) :
    List MeasRow :=
  match row.bpdias with
  | none => []
  | some v =>
    [{ personId := row.participantId,
       measurementConceptId := 4154790,
       measurementConceptName := "Diastolic blood pressure",
       measurementSourceValue :=
         "vital_signs+bpdias (Diastolic Blood Pressure)",
       measurementDate := vds,
       measurementTypeConceptId := 32851,
       valueAsNumber := some v,
       valueAsConceptId := row.bppos.bind bpPositionConceptIds,
       valueAsConceptName := some (bpPosName row.bppos),
       valueSourceValue :=
         "vital_signs+bpdias: " ++ toString v ++ " | vital_signs+bppos (" ++
         bpPosLabel row.bppos ++ "): " ++
         (match row.bppos with | some n => toString n | none => "nan"),
       unitConceptId := some 37546954,
       unitConceptName := some "mmHg",
       unitSourceValue := some "mmHG",
       visitOccurrenceId := gvoi row.participantId row.vsdt }]

/-- The heart-rate block (lines 286–301). -/
def hrBlock (gvoi : Gvoi) (row : VitalRow) (vds : String) : List MeasRow :=
  match row.hr with
  | none => []
  | some v =>
    [{ personId := row.participantId,
       measurementConceptId := 3027018,
       measurementConceptName := "Heart rate",
       measurementSourceValue := "vital_signs+hr (Heart rate)",
       measurementDate := vds,
       measurementTypeConceptId := 32851,
       valueAsNumber := some v,
       valueAsConceptId := none,
       valueAsConceptName := none,
       valueSourceValue := "vital_signs+hr: " ++ toString v,
       unitConceptId := some 4118124,
       unitConceptName := some "beats/min",
       unitSourceValue := some "Beats / min",
       visitOccurrenceId := gvoi row.participantId row.vsdt }]

/-- The respiratory-rate block (lines 304–319). -/
def rrBlock (gvoi : Gvoi) (row : VitalRow) (vds : String) : List MeasRow :=
  match row.rr with
  | none => []
  | some v =>
    [{ personId := row.participantId,
       measurementConceptId := 4313591,
       measurementConceptName := "Respiratory rate",
       measurementSourceValue := "vital_signs+rr (Respiratory Rate)",
       measurementDate := vds,
       measurementTypeConceptId := 32851,
       valueAsNumber := some v,
       valueAsConceptId := none,
       valueAsConceptName := none,
       valueSourceValue := "vital_signs+rr: " ++ toString v,
       unitConceptId := some 4117833,
       unitConceptName := some "breaths/min",
       unitSourceValue := some "Breaths / min",
       visitOccurrenceId := gvoi row.participantId row.vsdt }]

/-- The weight block (lines 322–347): no row when the unit code is
unknown, but the record is not skipped. -/
def weightBlock (gvoi : Gvoi) (row : VitalRow) (vds : String) :
    List MeasRow :=
  match row.weight with
  | none => []
  | some v =>
    match row.weightu.bind weightUnitConceptIds with
    | none => []
    | some uc =>
      [{ personId := row.participantId,
         measurementConceptId := 3025315,
         measurementConceptName := "Body weight",
         measurementSourceValue := "vital_signs+weight (Weight)",
         measurementDate := vds,
         measurementTypeConceptId := 32851,
         valueAsNumber := some v,
         valueAsConceptId := none,
         valueAsConceptName := none,
         valueSourceValue := "vital_signs+weight: " ++ toString v,
         unitConceptId := some uc,
         unitConceptName :=
           some (if row.weightu = some 1 then "pound (US)" else "kilogram"),
         unitSourceValue := some (if row.weightu = some 1 then "lb" else "kg"),
         visitOccurrenceId := gvoi row.participantId row.vsdt }]

/-- The height block (lines 350–375). -/
def heightBlock (gvoi : Gvoi) (row : VitalRow) (vds : String) :
    List MeasRow :=
  match row.height with
  | none => []
  | some v =>
    match row.heightu.bind heightUnitConceptIds with
    | none => []
    | some uc =>
      [{ personId := row.participantId,
         measurementConceptId := 3036277,
         measurementConceptName := "Body height",
         measurementSourceValue := "vital_signs+height (Height)",
         measurementDate := vds,
         measurementTypeConceptId := 32851,
         valueAsNumber := some v,
         valueAsConceptId := none,
         valueAsConceptName := none,
         valueSourceValue := "vital_signs+height: " ++ toString v,
         unitConceptId := some uc,
         unitConceptName :=
           some (if row.heightu = some 1 then "inch (US)" else "centimeter"),
         unitSourceValue := some (if row.heightu = some 1 then "in" else "cm"),
         visitOccurrenceId := gvoi row.participantId row.vsdt }]

/-- The BMI block (lines 378–393). -/
def bmiBlock (gvoi : Gvoi) (row : VitalRow) (vds : String) : List MeasRow :=
  match row.bmi with
  | none => []
  | some v =>
    [{ personId := row.participantId,
       measurementConceptId := 3038553,
       measurementConceptName := "Body mass index (BMI) [Ratio]",
       measurementSourceValue := "vital_signs+bmi (BMI)",
       measurementDate := vds,
       measurementTypeConceptId := 32851,
       valueAsNumber := some v,
       valueAsConceptId := none,
       valueAsConceptName := none,
       valueSourceValue := "vital_signs+bmi: " ++ toString v,
       unitConceptId := some 8523,
       unitConceptName := some "ratio",
       unitSourceValue := some "BMI",
       visitOccurrenceId := gvoi row.participantId row.vsdt }]

/-- The loop body after the visit date is fixed: the temperature block
first (whose `continue` drops the whole record), then the remaining
measurement blocks in source order. -/
def vitalRowBody (ratio : String → String → ℚ) (gvoi : Gvoi)
    (row : VitalRow) (vds : String) : List MeasRow × List VWarn :=
  let rest :=
    bpsysBlock gvoi row vds ++ bpdiasBlock gvoi row vds ++
    hrBlock gvoi row vds ++ rrBlock gvoi row vds ++
    weightBlock gvoi row vds ++ heightBlock gvoi row vds ++
    bmiBlock gvoi row vds
  match tempBlock ratio gvoi row vds with
  | .skipRecord w => ([], [w])
  | .noValue => (rest, [])
  | .emit m => (m :: rest, [])
  | .unrecognized t => (rest, [.unrecognizedTempType t])

/-- One iteration of the row loop of `vital_signs_to_measurement`
(lines 107–393): a missing `vsdt` gets the default date 1900-01-01
with a warning; an offset the Date Resolver rejects skips the record
with a warning; otherwise the resolved date is formatted and the body
runs. -/
def processVitalRow (ratio : String → String → ℚ) (gvoi : Gvoi)
    (indexDate : Int) (row : VitalRow) : List MeasRow × List VWarn :=
  match row.vsdt with
  | .missing =>
    let out := vitalRowBody ratio gvoi row (formatDate (daysFromCivil 1900 1 1))
    (out.1, .defaultDate row.participantId :: out.2)
  | off =>
    match relative_day_to_date off indexDate with
    | none => ([], [.invalidVsdt row.participantId (rawRepr off)])
    | some vd => vitalRowBody ratio gvoi row (formatDate vd)

/-- `vital_signs_to_measurement` over the full source table. -/
def vital_signs_to_measurement (ratio : String → String → ℚ) (gvoi : Gvoi)
    (indexDate : Int) (rows : List VitalRow) : List MeasRow × List VWarn :=
  rows.foldr
    (fun r acc =>
      let o := processVitalRow ratio gvoi indexDate r
      (o.1 ++ acc.1, o.2 ++ acc.2))
    ([], [])

/-! ## `auxiliary_chemistry_labs--measurement.py` -/

/-- One entry of the `lab_mappings` dictionary (lines 39–76). -/
structure AuxMapping where
  conceptId : Int
  conceptName : String
  sourceMeaning : String
  unitVar : String
  unitConceptId : Option Int
  unitConceptName : Option String
  normVar : String
deriving DecidableEq, Repr

/-- The `lab_mappings` dictionary of
`auxiliary_chemistry_labs_to_measurement`, in source order. -/
def lab_mappings : List (String × AuxMapping) :=
  [("acuarslt", ⟨4156643, "Blood urate measurement", "Uric Acid",
    "acuaunit", some 8840, some "milligram per deciliter", "uanorm"⟩),
   ("accrrslt", ⟨2212294, "Creatinine; blood", "Creatinine",
    "accreuni", some 8840, some "milligram per deciliter", "crenorm"⟩),
   ("acphrslt", ⟨4194292, "Blood inorganic phosphate measurement",
    "Phosphorous", "acphouni", some 8840, some "milligram per deciliter",
    "phonorm"⟩),
   ("acckrslt", ⟨3030170, "Creatine kinase measurement",
    "Creatine Kinase (CK)", "acckunit", none, none, "cknorm"⟩)]

/-- The `norm_status` interpretation dictionary (lines 129–133). -/
def normStatus : Int → Option String
  | 1 => some "Normal"
  | 2 => some "Abnormal and Not Clinically Significant"
  | 3 => some "Abnormal Clinically Significant"
  | _ => none

/-- One source row of the combined auxiliary chemistry tables; `none`
models an absent column or a `NaN` cell. -/
structure AuxRow where
  participantId : String
  labdt : RawOffset
  result : String → Option ℚ
  unitVal : String → Option String
  normVal : String → Option Int

/-- The warning the auxiliary-labs transformer logs. -/
inductive AWarn where
  | invalidLabdt (personId raw : String) : AWarn
deriving DecidableEq

/-- One lab emission (lines 92–174): skip when the result, the unit or
the norm value is missing; otherwise emit one measurement, with the
creatine-kinase unit chosen by substring match on the raw unit
text. -/
def auxEmit (gvoi : Gvoi) (row : AuxRow) (vds : String) (sourceVar : String)
    (m : AuxMapping) : Option MeasRow :=
  match row.result sourceVar with
  | none => none
  | some v =>
    match row.unitVal m.unitVar with
    | none => none
    | some u =>
      match row.normVal m.normVar with
      | none => none
      | some nv =>
        let normInterp := (normStatus nv).getD "Unknown"
        let valueSource :=
          String.intercalate " | "
            ["auxiliary_chemistry_labs+" ++ sourceVar ++ " (lab result): " ++
             toString v,
             "auxiliary_chemistry_labs+" ++ m.normVar ++ " (norm status): " ++
             toString nv ++ " (" ++ normInterp ++ ")"]
        let unitPair : Option Int × Option String :=
          if sourceVar = "acckrslt" then
            if occursIn "Units/L".data u.data then
              (some 8645, some "unit per liter")
            else (some 8840, some "milligram per deciliter")
          else (m.unitConceptId, m.unitConceptName)
        some
          { personId := row.participantId,
            measurementConceptId := m.conceptId,
            measurementConceptName := m.conceptName,
            measurementSourceValue :=
              "auxiliary_chemistry_labs+" ++ sourceVar ++ " (" ++
              m.sourceMeaning ++ ")",
            measurementDate := vds,
            measurementTypeConceptId := 32851,
            valueAsNumber := some v,
            valueAsConceptId := some (if nv = 1 then 4069590 else 40641582),
            valueAsConceptName :=
              some (if nv = 1 then "Normal" else "Abnormal"),
            valueSourceValue := valueSource,
            unitConceptId := unitPair.1,
            unitConceptName := unitPair.2,
            unitSourceValue :=
              some ("auxiliary_chemistry_labs+" ++ m.unitVar ++ " (unit): " ++
                u),
            visitOccurrenceId := gvoi row.participantId row.labdt }

/-- One iteration of the row loop of
`auxiliary_chemistry_labs_to_measurement` (lines 79–174): a `labdt`
the Date Resolver rejects (missing or unparseable) skips the record
with a warning; otherwise every lab mapping is tried in order. -/
def processAuxRow (gvoi : Gvoi) (indexDate : Int) (row : AuxRow) :
    List MeasRow × List AWarn :=
  match relative_day_to_date row.labdt indexDate with
  | none => ([], [.invalidLabdt row.participantId (rawRepr row.labdt)])
  | some vd =>
    (lab_mappings.filterMap (fun p => auxEmit gvoi row (formatDate vd) p.1 p.2),
     [])

/-- `auxiliary_chemistry_labs_to_measurement` over the full source
table. -/
def auxiliary_chemistry_labs_to_measurement (gvoi : Gvoi) (indexDate : Int)
    (rows : List AuxRow) : List MeasRow × List AWarn :=
  rows.foldr
    (fun r acc =>
      let o := processAuxRow gvoi indexDate r
      (o.1 ++ acc.1, o.2 ++ acc.2))
    ([], [])

/-! ## `aalsdxfx--observation.py`

The observation concept ids mix integers and placeholder strings, so
they are embedded as a sum; the intentionally empty output columns
(lines 480–493) are constants and are omitted from the row
structure. -/

/-- A concept id cell: a number or a placeholder text. -/
inductive DxCid where
  | num (n : Int) : DxCid
  | txt (s : String) : DxCid
deriving DecidableEq, Repr

/-- The three converter families used by `observation_items`: the
yes/no indicator maps (shared by `aalsdx1..3` and the clinical
indicators), the El Escorial map, and the EMG indicator map. -/
inductive ConvKind where
  | indicator : ConvKind
  | elescrlr : ConvKind
  | emg : ConvKind
deriving DecidableEq, Repr

/-- The yes/no `value_as_concept_id` map (lines 18–25 and
analogues). -/
def indicatorValueConceptId (v : Int) : Int :=
  if v = 1 then 45877994 else if v = 2 then 45878245
  else if v = 90 then 45881531 else 0

/-- The yes/no `value_source_value` map (lines 28–35 and
analogues). -/
def indicatorSourceValue (v : Int) : String :=
  if v = 1 then "Yes" else if v = 2 then "No"
  else if v = 90 then "Not Done" else "Unknown"

/-- The yes/no `value_as_concept_name` map (lines 142–149 and
analogues). -/
def indicatorConceptName (v : Int) : String :=
  if v = 1 then "yes" else if v = 2 then "no"
  else if v = 90 then "not assessed" else "Unknown"

/-- The El Escorial `value_as_concept_id` map (lines 78–87). -/
def elescrlrValueConceptId (v : Int) : Int :=
  if v = 1 then 2000000062 else if v = 2 then 2000000058
  else if v = 3 then 2000000060 else if v = 4 then 2000000059
  else if v = 5 then 2000000057 else 0

/-- The El Escorial source-value / concept-name map (lines 90–99 and
172–181; the two maps carry the same strings). -/
def elescrlrSourceValue (v : Int) : String :=
  if v = 1 then "Suspected" else if v = 2 then "Possible"
  else if v = 3 then "Probable Laboratory Supported"
  else if v = 4 then "Probable" else if v = 5 then "Definite"
  else "Unknown"

/-- The EMG `value_source_value` map (lines 132–139). -/
def emgSourceValue (v : Int) : String :=
  if v = 1 then "Denervation" else if v = 2 then "No Denervation"
  else if v = 90 then "Not Done" else "Unknown"

/-- `value_converter` by family (the EMG concept ids coincide with the
indicator ones, lines 122–129). -/
def convValueConceptId : ConvKind → Int → Int
  | .indicator, v => indicatorValueConceptId v
  | .emg, v => indicatorValueConceptId v
  | .elescrlr, v => elescrlrValueConceptId v

/-- `source_value_converter` by family. -/
def convSourceValue : ConvKind → Int → String
  | .indicator, v => indicatorSourceValue v
  | .emg, v => emgSourceValue v
  | .elescrlr, v => elescrlrSourceValue v

/-- `concept_name_converter` by family (the EMG concept names coincide
with the indicator ones, lines 194–201). -/
def convConceptName : ConvKind → Int → String
  | .indicator, v => indicatorConceptName v
  | .emg, v => indicatorConceptName v
  | .elescrlr, v => elescrlrSourceValue v

/-- One entry of `observation_items` (lines 221–438). -/
structure DxItem where
  sourceColumn : String
  conceptId : DxCid
  conceptName : String
  sourceValue : String
  kind : ConvKind
deriving DecidableEq, Repr

/-- The `aalsdx1` shared `source_value` text. -/
def aalsdx1SourceText : String :=
  "Topographical location and pattern of progression of UMN and LMN signs, including signs of spread within a region or to other regions, consistent with ALS?"

/-- The `observation_items` list (lines 221–438), in source order. -/
def observation_items : List DxItem :=
  [⟨"alsdx1", .txt "als_diagnosis_presence_lmn",
    "Presence of evidence of lower motor neuron (LMN) degeneration by clinical, electrophysiological or neuropathologic examination",
    aalsdx1SourceText, .indicator⟩,
   ⟨"alsdx1", .txt "als_diagnosis_presence_umn",
    "Presence of evidence of upper motor neuron (UMN) degeneration by clinical examination",
    aalsdx1SourceText, .indicator⟩,
   ⟨"alsdx1", .num 2000000020,
    "Presence of progressive spread of symptoms or signs within a region or to other regions as determined by history or examination",
    aalsdx1SourceText, .indicator⟩,
   ⟨"alsdx2", .num 2000000021,
    "Absence of electrophysiological or pathological evidence of other disease processes that might explain the signs of LMN and/or UMN degeneration",
    "Exclusion by electrophysiological testing of all other processes including conduction block that might explain the underlying signs and symptoms?",
    .indicator⟩,
   ⟨"alsdx3", .num 2000000022,
    "Absence of neuroimaging evidence of other disease processes that might explain the observed clinical and electrophysiological signs",
    "Exclusion by neuroimaging of other disease processes such as myelopathy or radiculopathy that might explain observed clinical and electrophysiological signs?",
    .indicator⟩,
   ⟨"elescrlr", .num 2000000061, "El Escorial criteria - revised",
    "Revised El Escorial Criteria for ALS", .elescrlr⟩,
   ⟨"blbcumn", .num 2000000035,
    "Bulbar upper motor neuron clinical indicator",
    "Bulbar upper motor neuron clinical indicator", .indicator⟩,
   ⟨"luecumn", .txt "lueumnclinind",
    "Left upper extremity upper motor neuron clinical indicator",
    "Left upper extremity upper motor neuron clinical indicator",
    .indicator⟩,
   ⟨"ruecumn", .txt "rueumnclinind",
    "Right upper extremity upper motor neuron clinical indicator",
    "Right upper extremity upper motor neuron clinical indicator",
    .indicator⟩,
   ⟨"trnkcumn", .txt "trunkumnclinind",
    "Trunk upper motor neuron clinical indicator",
    "Trunk upper motor neuron clinical indicator", .indicator⟩,
   ⟨"llecumn", .txt "lleumnclinind",
    "Left lower extremity upper motor neuron clinical indicator",
    "Left lower extremity upper motor neuron clinical indicator",
    .indicator⟩,
   ⟨"rlecumn", .txt "rleumnclinind",
    "Right lower extremity upper motor neuron clinical indicator",
    "Right lower extremity upper motor neuron clinical indicator",
    .indicator⟩,
   ⟨"blbclmn", .num 2000000029,
    "Bulbar lower motor neuron clinical indicator",
    "Bulbar lower motor neuron clinical indicator", .indicator⟩,
   ⟨"lueclmn", .txt "luelmnclinind",
    "Left upper extremity lower motor neuron clinical indicator",
    "Left upper extremity lower motor neuron clinical indicator",
    .indicator⟩,
   ⟨"rueclmn", .txt "ruelmnclinind",
    "Right upper extremity lower motor neuron clinical indicator",
    "Right upper extremity lower motor neuron clinical indicator",
    .indicator⟩,
   ⟨"trnkclmn", .txt "trunklmnclinind",
    "Trunk lower motor neuron clinical indicator",
    "Trunk lower motor neuron clinical indicator", .indicator⟩,
   ⟨"lleclmn", .txt "llelmnclinind",
    "Left lower extremity lower motor neuron clinical indicator",
    "Left lower extremity lower motor neuron clinical indicator",
    .indicator⟩,
   ⟨"rleclmn", .txt "rlelmnclinind",
    "Right lower extremity lower motor neuron clinical indicator",
    "Right lower extremity lower motor neuron clinical indicator",
    .indicator⟩,
   ⟨"blbelmn", .num 2000000030,
    "Bulbar lower motor neuron electromyogram indicator",
    "Bulbar lower motor neuron electromyogram indicator", .emg⟩,
   ⟨"lueelmn", .txt "luelmnemgind",
    "Left upper extremity lower motor neuron electromyogram indicator",
    "Left upper extremity lower motor neuron electromyogram indicator",
    .emg⟩,
   ⟨"rueelmn", .txt "ruelmnemgind",
    "Right upper extremity lower motor neuron electromyogram indicator",
    "Right upper extremity lower motor neuron electromyogram indicator",
    .emg⟩,
   ⟨"trnkelmn", .txt "trunklmnemgind",
    "Trunk lower motor neuron electromyogram indicator",
    "Trunk lower motor neuron electromyogram indicator", .emg⟩,
   ⟨"lleelmn", .txt "llelmnemgind",
    "Left lower extremity lower motor neuron electromyogram indicator",
    "Left lower extremity lower motor neuron electromyogram indicator",
    .emg⟩,
   ⟨"rleelmn", .txt "rlelmnemgind",
    "Right lower extremity lower motor neuron electromyogram indicator",
    "Right lower extremity lower motor neuron electromyogram indicator",
    .emg⟩]

/-- One source row of `aalsdxfx.csv`: the participant, the `alsdxdt`
offset, the `Visit_Date` offset, and the indicator columns; `none`
models an absent column or a `NaN` cell. -/
structure DxRow where
  participantId : String
  alsdxdt : Option Int
  visitDate : Option Int
  value : String → Option Int

/-- One output observation row (the intentionally empty columns
omitted). -/
structure ObsRow where
  personId : String
  observationConceptId : DxCid
  observationConceptName : String
  observationSourceValue : String
  observationDate : Option Int
  observationTypeConceptId : Int
  valueAsConceptId : Int
  valueAsConceptName : String
  valueSourceValue : String
  visitOccurrenceId : Option Nat
deriving DecidableEq

/-- The inner item loop of `process_aalsdxfx_to_observation`
(lines 452–495): each present indicator column yields one
observation; the observation date comes from `alsdxdt` through the
Date Resolver, the visit reference `vref` was fixed before the
loop. -/
def dxObservations (indexDate : Int) (row : DxRow) (vref : Option Nat) :
    List ObsRow :=
  observation_items.filterMap (fun item =>
    (row.value item.sourceColumn).map (fun v =>
      { personId := row.participantId,
        observationConceptId := item.conceptId,
        observationConceptName := item.conceptName,
        observationSourceValue := item.sourceValue,
        observationDate :=
          match row.alsdxdt with
          | some d => relative_day_to_date (.intVal d) indexDate
          | none => none,
        observationTypeConceptId := 32851,
        valueAsConceptId := convValueConceptId item.kind v,
        valueAsConceptName := convConceptName item.kind v,
        valueSourceValue := convSourceValue item.kind v,
        visitOccurrenceId := vref }))

/-- One iteration of the row loop of `process_aalsdxfx_to_observation`
(lines 441–495): a missing `alsdxdt` fixes a null visit reference
without consulting `Visit_Date`; a present `alsdxdt` resolves the
visit from `int(Visit_Date)`, which raises when `Visit_Date` is
missing. -/
def process_aalsdxfx_row (gvoi : Gvoi) (indexDate : Int) (row : DxRow) :
    Except String (List ObsRow) :=
  match row.alsdxdt with
  | none => .ok (dxObservations indexDate row none)
  | some _ =>
    match row.visitDate with
    | none => .error "int() applied to a missing Visit_Date"
    | some vd =>
      .ok (dxObservations indexDate row
        (gvoi row.participantId (.intVal vd)))

/-! ## `aalshxfx--condition_occurrence.py` -/

/-- The `subject_group_interpretation` dictionary (lines 23–26). -/
def subject_group_interpretation : String → Option String
  | "1" => some "ALS"
  | "17" => some "Non-ALS MND"
  | _ => none

/-- The `group_part` string of the row loop (lines 77–81 and
analogues): `interpretation.get(gid, "")` with the empty default
selecting the shorter format. -/
def groupPart (gid : String) : String :=
  match subject_group_interpretation gid with
  | some interp =>
    "subjects+subject_group_id: " ++ gid ++ " (" ++ interp ++ ")"
  | none => "subjects+subject_group_id: " ++ gid

/-- One source row of `aalshxfx.csv`.  `visitDateRepr` is the raw
`Visit_Date` cell as pandas renders it into the f-string composite
key (the column is read without a dtype, so the literal rendering is
kept abstract). -/
structure HxRow where
  participantId : String
  diagdt : Option Int
  onsetdt : Option Int
  visitDateRepr : String

/-- One output condition-occurrence row; the provisional visit
reference is the composite string the script writes. -/
structure CondRow where
  personId : String
  conditionConceptId : String
  conditionConceptName : String
  conditionSourceValue : String
  conditionStartDate : Option Int
  conditionTypeConceptId : Int
  visitOccurrenceId : String
deriving DecidableEq

/-- One iteration of the row loop of `aalshxfx--condition_occurrence`
`main` (lines 63–164), parameterized over the `subjects.csv`
participant-to-group map and the concept-id-to-name map: participants
without group info are skipped without logging, group "1" emits the
diagnosis and onset rows, group "17" emits the MND onset row, every
other group falls through silently.  The second component collects
log messages; no branch of the loop logs.  A missing onset concept
name raises the `KeyError` of the Python dict indexing. -/
def aalshxfx_row (sgMap : String → Option String)
    (conceptIdToName : String → Option String) (indexDate : Int)
    (row : HxRow) : Except String (List CondRow × List String) :=
  match sgMap row.participantId with
  | none => .ok ([], [])
  | some gid =>
    if gid = "1" then
      let diagRows : List CondRow :=
        match row.diagdt with
        | none => []
        | some d =>
          [{ personId := row.participantId,
             conditionConceptId := "373182",
             conditionConceptName := "Amyotrophic lateral sclerosis",
             conditionSourceValue :=
               groupPart gid ++ " | aalshxfx+from_ecrf: Date of ALS diagnosis",
             conditionStartDate := relative_day_to_date (.intVal d) indexDate,
             conditionTypeConceptId := 32851,
             visitOccurrenceId :=
               row.participantId ++ "_" ++ row.visitDateRepr }]
      match row.onsetdt with
      | none => .ok (diagRows, [])
      | some d =>
        match conceptIdToName "2000000397" with
        | none => .error "KeyError: 2000000397"
        | some nm =>
          .ok (diagRows ++
            [{ personId := row.participantId,
               conditionConceptId := "2000000397",
               conditionConceptName := nm,
               conditionSourceValue :=
                 groupPart gid ++
                 " | aalshxfx+from_ecrf: Date of ALS symptom onset",
               conditionStartDate :=
                 relative_day_to_date (.intVal d) indexDate,
               conditionTypeConceptId := 32851,
               visitOccurrenceId :=
                 row.participantId ++ "_" ++ row.visitDateRepr }], [])
    else if gid = "17" then
      match row.onsetdt with
      | none => .ok ([], [])
      | some d =>
        match conceptIdToName "2000002019" with
        | none => .error "KeyError: 2000002019"
        | some nm =>
          .ok ([{ personId := row.participantId,
                  conditionConceptId := "2000002019",
                  conditionConceptName := nm,
                  conditionSourceValue :=
                    groupPart gid ++
                    " | aalshxfx+from_ecrf: Date of MND symptom onset",
                  conditionStartDate :=
                    relative_day_to_date (.intVal d) indexDate,
                  conditionTypeConceptId := 32851,
                  visitOccurrenceId :=
                    row.participantId ++ "_" ++ row.visitDateRepr }], [])
    else .ok ([], [])

/-! ## Concrete evaluation data shared by the witnesses -/

/-- A trivial similarity ratio (the fuzzy branch never fires). -/
def ratioZero : String → String → ℚ := fun _ _ => 0

/-- A visit lookup returning the no-visit sentinel everywhere. -/
def gvoiNone : Gvoi := fun _ _ => none

/-- A gene-mutation row: SOD1 tested (`sod1nd = 0`) with a positive
result, `Visit_Date` offset 5. -/
def geneRowExample : GeneRow :=
  { participantId := "P001", visitDate := 5,
    ndValue := fun s => if s = "sod1nd" then some 0 else none,
    testValue := fun s => if s = "sod1" then some 1 else none,
    sod1muta := none }

/-- A vital-signs row with a missing `vsdt` and an oral temperature of
37 with an explicit Celsius unit code. -/
def vitalRowExample : VitalRow :=
  { participantId := "P002", vsdt := .missing, temp := some 37,
    temprt := some 2, temprtsp := none, tempu := some 2,
    bpsys := none, bpdias := none, bppos := none, hr := none, rr := none,
    weight := none, weightu := none, height := none, heightu := none,
    bmi := none }

/-- The measurement row the gene-mutation script emits for
`geneRowExample`. -/
def geneMeasExample : GeneMeasRow :=
  { personId := "P001",
    measurementConceptId := 35948140,
    measurementConceptName :=
      "SOD1 (superoxide dismutase 1) gene variant measurement",
    measurementSourceValue := "als_gene_mutations+sod1nd (SOD1)",
    measurementDate := "2016-01-06",
    measurementTypeConceptId := 32851,
    valueAsConceptId := 9191,
    valueAsConceptName := "Positive",
    valueSourceValue := "als_gene_mutations+sod1: 1 (Positive)",
    visitOccurrenceId := "P001_5" }

/-- A vital-signs row with offset 3, an oral temperature of 37 and a
missing unit code. -/
def vitalRowC : VitalRow :=
  { participantId := "P006", vsdt := .intVal 3, temp := some 37,
    temprt := some 2, temprtsp := none, tempu := none,
    bpsys := none, bpdias := none, bppos := none, hr := none, rr := none,
    weight := none, weightu := none, height := none, heightu := none,
    bmi := none }

/-- A vital-signs row whose `vsdt` cell cannot be parsed as an
integer. -/
def vrowBad : VitalRow :=
  { participantId := "P004", vsdt := .unparseable "abc", temp := none,
    temprt := none, temprtsp := none, tempu := none,
    bpsys := none, bpdias := none, bppos := none, hr := none, rr := none,
    weight := none, weightu := none, height := none, heightu := none,
    bmi := none }

/-- An auxiliary-labs row whose `labdt` cell cannot be parsed as an
integer. -/
def arowBad : AuxRow :=
  { participantId := "P005", labdt := .unparseable "xyz",
    result := fun _ => none, unitVal := fun _ => none,
    normVal := fun _ => none }

/-- An aalsdxfx row with `alsdxdt = 7`, `Visit_Date = 5` and only the
`alsdx1` indicator present (value 1). -/
def dxRowExample : DxRow :=
  { participantId := "P003", alsdxdt := some 7, visitDate := some 5,
    value := fun s => if s = "alsdx1" then some 1 else none }

/-- The first observation emitted for `dxRowExample`. -/
def dxObsExample : ObsRow :=
  { personId := "P003",
    observationConceptId := .txt "als_diagnosis_presence_lmn",
    observationConceptName :=
      "Presence of evidence of lower motor neuron (LMN) degeneration by clinical, electrophysiological or neuropathologic examination",
    observationSourceValue := aalsdx1SourceText,
    observationDate := some (indexDate2016 + 7),
    observationTypeConceptId := 32851,
    valueAsConceptId := 45877994,
    valueAsConceptName := "yes",
    valueSourceValue := "Yes",
    visitOccurrenceId := none }

/-- A participant-to-group map placing "P9" in group "5". -/
def sgMapExample : String → Option String :=
  fun p => if p = "P9" then some "5" else none

/-- An aalshxfx row for participant "P9". -/
def hxRowExample : HxRow :=
  { participantId := "P9", diagdt := some 3, onsetdt := some 4,
    visitDateRepr := "5.0" }

/-! ## Helper lemmas -/

set_option maxRecDepth 16000

/-- Every observation built by the aalsdxfx item loop carries the
visit reference fixed before the loop and the observation date derived
from `alsdxdt`. -/
theorem dxObservations_mem (idx : Int) (row : DxRow) (vref : Option Nat)
    (obs : ObsRow) (h : obs ∈ dxObservations idx row vref) :
    obs.visitOccurrenceId = vref ∧
    obs.observationDate =
      (match row.alsdxdt with
       | some d => relative_day_to_date (.intVal d) idx
       | none => none) := by
  rcases List.mem_filterMap.mp h with ⟨item, _, heq⟩
  rcases Option.map_eq_some'.mp heq with ⟨v, _, hobs⟩
  cases hobs
  exact ⟨rfl, rfl⟩

/-- A row the gene-mutation script emits always carries the composite
raw-`Visit_Date` visit reference. -/
theorem geneEmit_visit (row : GeneRow) (vds sourceVar : String)
    (mp : GeneMapping) (m : GeneMeasRow)
    (h : geneEmit row vds sourceVar mp = some m) :
    m.visitOccurrenceId = row.participantId ++ "_" ++ toString row.visitDate := by
  unfold geneEmit at h
  by_cases h1 : row.ndValue sourceVar = some 1
  · rw [if_pos h1] at h
    cases h
  · rw [if_neg h1] at h
    rcases ht : row.testValue mp.testVar with _ | tv
    · simp only [ht] at h
      exact Option.noConfusion h
    · simp only [ht] at h
      by_cases h2 : row.ndValue sourceVar = some 0 ∧ (tv = 1 ∨ tv = 2)
      · rw [if_pos h2] at h
        cases h
        rfl
      · rw [if_neg h2] at h
        cases h

/-- A temperature row emitted by the temperature block carries the
row's visit date string. -/
theorem tempBlock_emit_date (ratio : String → String → ℚ) (gvoi : Gvoi)
    (row : VitalRow) (vds : String) (m : MeasRow)
    (h : tempBlock ratio gvoi row vds = .emit m) :
    m.measurementDate = vds := by
  unfold tempBlock at h
  rcases h0 : row.temp with _ | v <;> simp only [h0] at h
  · cases h
  · rcases h1 : tempTypeOf ratio row with _ | tt <;> simp only [h1] at h
    · cases h
    · rcases h2 : tempConceptIds tt with _ | cid <;> simp only [h2] at h
      · cases h
      · rcases h3 : row.tempu with _ | u <;> simp only [h3] at h
        · by_cases h4 : 35 ≤ v ∧ v ≤ 40
          · rw [if_pos h4] at h
            cases h
            rfl
          · rw [if_neg h4] at h
            by_cases h5 : 95 ≤ v ∧ v ≤ 104
            · rw [if_pos h5] at h
              cases h
              rfl
            · rw [if_neg h5] at h
              cases h
        · rcases h6 : tempUnitConceptIds u with _ | uc <;> simp only [h6] at h
          · cases h
          · cases h
            rfl

/-- Every row of the non-temperature measurement blocks carries the
row's visit date string. -/
theorem vitalRest_dates (gvoi : Gvoi) (row : VitalRow) (vds : String) :
    ∀ m ∈ bpsysBlock gvoi row vds ++ bpdiasBlock gvoi row vds ++
        hrBlock gvoi row vds ++ rrBlock gvoi row vds ++
        weightBlock gvoi row vds ++ heightBlock gvoi row vds ++
        bmiBlock gvoi row vds, m.measurementDate = vds := by
  intro m hm
  simp only [List.mem_append] at hm
  rcases hm with ((((((h | h) | h) | h) | h) | h) | h)
  · unfold bpsysBlock at h
    rcases hb : row.bpsys with _ | v <;> simp only [hb] at h
    · cases h
    · obtain rfl := List.mem_singleton.mp h
      rfl
  · unfold bpdiasBlock at h
    rcases hb : row.bpdias with _ | v <;> simp only [hb] at h
    · cases h
    · obtain rfl := List.mem_singleton.mp h
      rfl
  · unfold hrBlock at h
    rcases hb : row.hr with _ | v <;> simp only [hb] at h
    · cases h
    · obtain rfl := List.mem_singleton.mp h
      rfl
  · unfold rrBlock at h
    rcases hb : row.rr with _ | v <;> simp only [hb] at h
    · cases h
    · obtain rfl := List.mem_singleton.mp h
      rfl
  · unfold weightBlock at h
    rcases hb : row.weight with _ | v <;> simp only [hb] at h
    · cases h
    · rcases hu : row.weightu.bind weightUnitConceptIds with _ | uc <;>
        simp only [hu] at h
      · cases h
      · obtain rfl := List.mem_singleton.mp h
        rfl
  · unfold heightBlock at h
    rcases hb : row.height with _ | v <;> simp only [hb] at h
    · cases h
    · rcases hu : row.heightu.bind heightUnitConceptIds with _ | uc <;>
        simp only [hu] at h
      · cases h
      · obtain rfl := List.mem_singleton.mp h
        rfl
  · unfold bmiBlock at h
    rcases hb : row.bmi with _ | v <;> simp only [hb] at h
    · cases h
    · obtain rfl := List.mem_singleton.mp h
      rfl

/-- Every measurement row the vital-signs loop body emits carries the
row's visit date string. -/
theorem vitalRowBody_dates (ratio : String → String → ℚ) (gvoi : Gvoi)
    (row : VitalRow) (vds : String) :
    ∀ m ∈ (vitalRowBody ratio gvoi row vds).1, m.measurementDate = vds := by
  intro m hm
  unfold vitalRowBody at hm
  rcases htb : tempBlock ratio gvoi row vds with _ | m' | w | t <;>
    simp only [htb] at hm
  · exact vitalRest_dates gvoi row vds m hm
  · rcases List.mem_cons.mp hm with hm | hm
    · exact hm ▸ tempBlock_emit_date ratio gvoi row vds m' htb
    · exact vitalRest_dates gvoi row vds m hm
  · cases hm
  · exact vitalRest_dates gvoi row vds m hm

/-! ## The claims -/

/-- C1: for all participants and calendar dates, resolving the same
normalized pair twice returns the same `visit_occurrence_id` both
times and leaves the registry unchanged after the first call; a pair
already present returns the existing id with no new allocation. -/
theorem C1_resolve_idempotent (r : VisitRegistry) (p : String)
    (d : Option Int) :
    ((r.resolve p d).2.resolve p d).1 = (r.resolve p d).1 ∧
    ((r.resolve p d).2.resolve p d).2 = (r.resolve p d).2 ∧
    (∀ day i, d = some day → lookupPair r.table (p, day) = some i →
      r.resolve p d = (some i, r)) := by
  rcases d with _ | day
  · simp [VisitRegistry.resolve]
  · rcases h : lookupPair r.table (p, day) with _ | i
    · refine ⟨?_, ?_, ?_⟩
      · simp [VisitRegistry.resolve, h, lookupPair]
      · simp [VisitRegistry.resolve, h, lookupPair]
      · intro day' i' hd hl
        cases hd
        rw [h] at hl
        cases hl
    · refine ⟨?_, ?_, ?_⟩
      · simp [VisitRegistry.resolve, h]
      · simp [VisitRegistry.resolve, h]
      · intro day' i' hd hl
        cases hd
        rw [h] at hl
        cases hl
        simp [VisitRegistry.resolve, h]

/-- Witness for C1: the pair ("P001", day 5) is present with id 0, and
`resolve` returns that id with the registry unchanged. -/
theorem C1_resolve_idempotent_witness :
    VisitRegistry.resolve ⟨[(("P001", 5), 0)], 1⟩ "P001" (some 5) =
      (some 0, ⟨[(("P001", 5), 0)], 1⟩) :=
  (C1_resolve_idempotent ⟨[(("P001", 5), 0)], 1⟩ "P001" (some 5)).2.2
    5 0 rfl (by decide)

/-- C3 counterexample: the driver's `second_scripts` list runs the
Table Id Assignment script (`create_table_ids.py`, position 1) before
the Visit Registry script (`create_visits.py`, position 3), so the
claimed order Combine → Visit Registry → Person Id Mapper → Table Id
Assignment → Foreign Key Rewrite is not the executed order. -/
theorem C3_counterexample :
    second_scripts[1]? = some "create_table_ids.py" ∧
    second_scripts[3]? = some "create_visits.py" ∧
    second_scripts ≠
      ["combine_subtables.py", "create_visits.py", "person_id_map.py",
       "create_table_ids.py", "transform_ids.py"] := by decide

/-- C3 amended: the driver executes the second-stage scripts strictly
sequentially in the order Combine, Table Id Assignment, Person Id
Mapper, Visit Registry, Foreign Key Rewrite — each script finishes
before the next starts, and in particular the Visit Registry script
completes before the Foreign Key Rewrite script begins. -/
theorem C3_stage_order :
    runScripts second_scripts =
      [.start "combine_subtables.py", .finish "combine_subtables.py",
       .start "create_table_ids.py", .finish "create_table_ids.py",
       .start "person_id_map.py", .finish "person_id_map.py",
       .start "create_visits.py", .finish "create_visits.py",
       .start "transform_ids.py", .finish "transform_ids.py"] := by
  decide

/-- C5: a concept cell whose id is unknown to the vocabulary becomes
exactly the complete sentinel pair `(0, "No Matching Concept")` with a
warning keyed by the (column, value); a cell whose id is known passes
through unmutated; the validator is total and processes every row, so
it never fails the run. -/
theorem C5_concept_sentinel (vocab : List (String × String)) (col : String)
    (cells : List (String × String)) (i : Nat) (cell : String × String)
    (h : cells[i]? = some cell) :
    (lookupVocab vocab cell.1 = none →
      (check_missing_concept_ids vocab col cells).1[i]? =
        some ("0", "No Matching Concept") ∧
      (col, cell.1) ∈ (check_missing_concept_ids vocab col cells).2) ∧
    (∀ nm, lookupVocab vocab cell.1 = some nm →
      (check_missing_concept_ids vocab col cells).1[i]? = some cell) ∧
    (check_missing_concept_ids vocab col cells).1.length = cells.length := by
  refine ⟨?_, ?_, ?_⟩
  · intro hn
    constructor
    · simp [check_missing_concept_ids, h, validateCell, hn]
    · refine List.mem_filterMap.mpr ⟨cell, ?_, ?_⟩
      · exact List.mem_iff_getElem?.mpr ⟨i, h⟩
      · simp [validateCell, hn]
  · intro nm hs
    simp [check_missing_concept_ids, h, validateCell, hs]
  · simp [check_missing_concept_ids]

/-- Witness for C5: id "999" is absent from the vocabulary
`[("100", "Foo")]` and is replaced by the sentinel pair with a
warning. -/
theorem C5_concept_sentinel_witness :
    (check_missing_concept_ids [("100", "Foo")] "measurement_concept_id"
      [("999", "Bar")]).1[0]? = some ("0", "No Matching Concept") ∧
    ("measurement_concept_id", "999") ∈
      (check_missing_concept_ids [("100", "Foo")] "measurement_concept_id"
        [("999", "Bar")]).2 :=
  (C5_concept_sentinel [("100", "Foo")] "measurement_concept_id"
    [("999", "Bar")] 0 ("999", "Bar") rfl).1 (by decide)

/-- C7: for every table name, a zero-byte input file makes
`transform_table_ids` skip the file with a warning outcome and return
normally, whatever the CSV reader would do; an empty source file never
produces an error. -/
theorem C7_empty_file_skipped (readCsv : String → Except String Unit)
    (tableName : String) :
    transform_table_ids readCsv tableName "" =
      .ok (.skippedEmpty tableName) := rfl

/-- C2 counterexample: the gene-mutation producer emits a row whose
visit reference is "P001_5" — the raw, unconverted `Visit_Date`
integer 5 — while the same row's measurement date shows the
Date-Resolver normalization of that offset is "2016-01-06"; the visit
reference does not embed the normalized calendar date. -/
theorem C2_counterexample :
    (als_gene_mutations_row indexDate2016 geneRowExample).map
      (fun m => m.visitOccurrenceId) = ["P001_5"] ∧
    (als_gene_mutations_row indexDate2016 geneRowExample).map
      (fun m => m.measurementDate) = ["2016-01-06"] ∧
    ("P001_5" : String) ≠ "P001_" ++ "2016-01-06" := by decide

/-- C2 amended: the `als_gene_mutations` and `aalshxfx` producers
embed the raw, unconverted `Visit_Date` literal in every provisional
visit reference they write (`"{participant}_{raw_visit_date}"`), so
not every producer normalizes the visit reference through the Date
Resolver. -/
theorem C2_raw_visit_reference :
    (∀ idx row m, m ∈ als_gene_mutations_row idx row →
      m.visitOccurrenceId = row.participantId ++ "_" ++
        toString row.visitDate) ∧
    (∀ sgMap cn idx row out c,
      aalshxfx_row sgMap cn idx row = .ok out → c ∈ out.1 →
      c.visitOccurrenceId = row.participantId ++ "_" ++
        row.visitDateRepr) := by
  constructor
  · intro idx row m hm
    unfold als_gene_mutations_row at hm
    simp only [relative_day_to_date] at hm
    rcases List.mem_filterMap.mp hm with ⟨p, _, hp⟩
    exact geneEmit_visit row _ p.1 p.2 m hp
  · intro sgMap cn idx row out c h hc
    unfold aalshxfx_row at h
    rcases hg : sgMap row.participantId with _ | gid <;> simp only [hg] at h
    · cases h
      cases hc
    · by_cases h1 : gid = "1"
      · rw [if_pos h1] at h
        rcases ho : row.onsetdt with _ | d <;> simp only [ho] at h
        · cases h
          rcases hd : row.diagdt with _ | d' <;> simp only [hd] at hc
          · cases hc
          · obtain rfl := List.mem_singleton.mp hc
            rfl
        · rcases hn : cn "2000000397" with _ | nm <;> simp only [hn] at h
          · cases h
          · cases h
            simp only [List.mem_append] at hc
            rcases hc with hc | hc
            · rcases hd : row.diagdt with _ | d' <;> simp only [hd] at hc
              · cases hc
              · obtain rfl := List.mem_singleton.mp hc
                rfl
            · obtain rfl := List.mem_singleton.mp hc
              rfl
      · rw [if_neg h1] at h
        by_cases h17 : gid = "17"
        · rw [if_pos h17] at h
          rcases ho : row.onsetdt with _ | d <;> simp only [ho] at h
          · cases h
            cases hc
          · rcases hn : cn "2000002019" with _ | nm <;> simp only [hn] at h
            · cases h
            · cases h
              obtain rfl := List.mem_singleton.mp hc
              rfl
        · rw [if_neg h17] at h
          cases h
          cases hc

/-- Witness for the C2 amended claim: the concrete SOD1 row's visit
reference is exactly the composite of the participant id and the raw
offset literal. -/
theorem C2_raw_visit_reference_witness :
    geneMeasExample.visitOccurrenceId =
      geneRowExample.participantId ++ "_" ++
        toString geneRowExample.visitDate :=
  C2_raw_visit_reference.1 indexDate2016 geneRowExample geneMeasExample
    (by decide)

/-- C4 counterexample: a vital-signs row with a missing `vsdt` emits a
measurement dated "1900-01-01" — the date field is defaulted to a
calendar value, not left absent — after logging the default-date
warning. -/
theorem C4_counterexample :
    (processVitalRow ratioZero gvoiNone indexDate2016 vitalRowExample).1.map
      (fun m => m.measurementDate) = ["1900-01-01"] ∧
    (processVitalRow ratioZero gvoiNone indexDate2016 vitalRowExample).2 =
      [.defaultDate "P002"] := by decide

/-- C4 amended: for aalsdxfx rows with a missing `alsdxdt` every
emitted observation carries no date and a null visit reference, and
the spec-modelled registry resolves a missing date to the no-visit
sentinel without allocating; the vital-signs producer, however,
substitutes the default calendar date 1900-01-01 (with a warning) for
a missing `vsdt` instead of leaving the date absent, passing the raw
missing offset to the visit lookup. -/
theorem C4_missing_offset :
    (∀ gvoi idx row l obs, row.alsdxdt = none →
      process_aalsdxfx_row gvoi idx row = .ok l → obs ∈ l →
      obs.observationDate = none ∧ obs.visitOccurrenceId = none) ∧
    (∀ r : VisitRegistry, ∀ p : String,
      r.resolve p none = (none, r)) ∧
    (∀ ratio gvoi idx row, row.vsdt = .missing →
      (processVitalRow ratio gvoi idx row).2.head? =
        some (.defaultDate row.participantId) ∧
      ∀ m ∈ (processVitalRow ratio gvoi idx row).1,
        m.measurementDate = formatDate (daysFromCivil 1900 1 1)) := by
  refine ⟨?_, ?_, ?_⟩
  · intro gvoi idx row l obs ha h hm
    unfold process_aalsdxfx_row at h
    rw [ha] at h
    cases h
    have hh := dxObservations_mem idx row none obs hm
    exact ⟨by rw [hh.2, ha], hh.1⟩
  · intro r p
    rfl
  · intro ratio gvoi idx row hmiss
    have hb : processVitalRow ratio gvoi idx row =
        ((vitalRowBody ratio gvoi row
            (formatDate (daysFromCivil 1900 1 1))).1,
          .defaultDate row.participantId ::
            (vitalRowBody ratio gvoi row
              (formatDate (daysFromCivil 1900 1 1))).2) := by
      unfold processVitalRow
      rw [hmiss]
    constructor
    · rw [hb]
      rfl
    · intro m hm
      rw [hb] at hm
      exact vitalRowBody_dates ratio gvoi row _ m hm

/-- Witness for the C4 amended claim: the empty registry resolves a
missing date to the sentinel, and the concrete vital-signs row with a
missing `vsdt` logs the default-date warning first. -/
theorem C4_missing_offset_witness :
    VisitRegistry.resolve ⟨[], 0⟩ "P000" none = (none, ⟨[], 0⟩) ∧
    (processVitalRow ratioZero gvoiNone indexDate2016 vitalRowExample).2.head? =
      some (.defaultDate vitalRowExample.participantId) :=
  ⟨C4_missing_offset.2.1 ⟨[], 0⟩ "P000",
   (C4_missing_offset.2.2 ratioZero gvoiNone indexDate2016 vitalRowExample
      rfl).1⟩

/-- C6: a day-offset cell that is present but cannot be resolved makes
both the vital-signs and the auxiliary-labs transformers log a warning
and skip the record — the row contributes no output — while the
remaining rows are processed unchanged. -/
theorem C6_invalid_offset_skips (ratio : String → String → ℚ) (gvoi : Gvoi)
    (idx : Int) (vrow : VitalRow) (vrows : List VitalRow) (s : String)
    (arow : AuxRow) (arows : List AuxRow) (t : String)
    (hv : vrow.vsdt = .unparseable s) (ha : arow.labdt = .unparseable t) :
    processVitalRow ratio gvoi idx vrow =
      ([], [.invalidVsdt vrow.participantId s]) ∧
    vital_signs_to_measurement ratio gvoi idx (vrow :: vrows) =
      ((vital_signs_to_measurement ratio gvoi idx vrows).1,
       .invalidVsdt vrow.participantId s ::
         (vital_signs_to_measurement ratio gvoi idx vrows).2) ∧
    processAuxRow gvoi idx arow =
      ([], [.invalidLabdt arow.participantId t]) ∧
    auxiliary_chemistry_labs_to_measurement gvoi idx (arow :: arows) =
      ((auxiliary_chemistry_labs_to_measurement gvoi idx arows).1,
       .invalidLabdt arow.participantId t ::
         (auxiliary_chemistry_labs_to_measurement gvoi idx arows).2) := by
  have h1 : processVitalRow ratio gvoi idx vrow =
      ([], [.invalidVsdt vrow.participantId s]) := by
    unfold processVitalRow
    rw [hv]
    rfl
  have h2 : processAuxRow gvoi idx arow =
      ([], [.invalidLabdt arow.participantId t]) := by
    unfold processAuxRow
    rw [ha]
    rfl
  refine ⟨h1, ?_, h2, ?_⟩
  · unfold vital_signs_to_measurement
    rw [List.foldr_cons, h1]
    rfl
  · unfold auxiliary_chemistry_labs_to_measurement
    rw [List.foldr_cons, h2]
    rfl

/-- Witness for C6: concrete rows with unparseable offsets are skipped
with the logged warning and contribute no output. -/
theorem C6_invalid_offset_skips_witness :
    processVitalRow ratioZero gvoiNone indexDate2016 vrowBad =
      ([], [.invalidVsdt "P004" "abc"]) ∧
    processAuxRow gvoiNone indexDate2016 arowBad =
      ([], [.invalidLabdt "P005" "xyz"]) :=
  ⟨(C6_invalid_offset_skips ratioZero gvoiNone indexDate2016 vrowBad [] "abc"
      arowBad [] "xyz" rfl rfl).1,
   (C6_invalid_offset_skips ratioZero gvoiNone indexDate2016 vrowBad [] "abc"
      arowBad [] "xyz" rfl rfl).2.2.1⟩

/-- C8: for every aalsdxfx row, a missing `alsdxdt` makes the
attached visit reference null regardless of `Visit_Date`; a present
`alsdxdt` derives the visit reference from the `Visit_Date` column
through the visit lookup while the observation date is derived from
`alsdxdt` through the Date Resolver. -/
theorem C8_dx_visit_fields (gvoi : Gvoi) (idx : Int) (row : DxRow)
    (l : List ObsRow) (obs : ObsRow)
    (h : process_aalsdxfx_row gvoi idx row = .ok l) (hm : obs ∈ l) :
    (row.alsdxdt = none → obs.visitOccurrenceId = none) ∧
    (∀ d, row.alsdxdt = some d →
      (∃ vd, row.visitDate = some vd ∧
        obs.visitOccurrenceId = gvoi row.participantId (.intVal vd)) ∧
      obs.observationDate = relative_day_to_date (.intVal d) idx) := by
  rcases hdx : row.alsdxdt with _ | d
  · refine ⟨fun _ => ?_, fun d hd => Option.noConfusion hd⟩
    unfold process_aalsdxfx_row at h
    rw [hdx] at h
    cases h
    exact (dxObservations_mem idx row none obs hm).1
  · refine ⟨fun hn => Option.noConfusion hn, fun d' hd' => ?_⟩
    cases hd'
    unfold process_aalsdxfx_row at h
    rw [hdx] at h
    rcases hvd : row.visitDate with _ | vd <;> simp only [hvd] at h
    · cases h
    · cases h
      have hh := dxObservations_mem idx row
        (gvoi row.participantId (.intVal vd)) obs hm
      refine ⟨⟨vd, rfl, hh.1⟩, ?_⟩
      rw [hh.2, hdx]

/-- Witness for C8: the concrete row with `alsdxdt = 7` and
`Visit_Date = 5` yields an observation dated from the resolved
`alsdxdt` whose visit reference comes from `Visit_Date`. -/
theorem C8_dx_visit_fields_witness :
    (∃ vd, dxRowExample.visitDate = some vd ∧
      dxObsExample.visitOccurrenceId =
        gvoiNone dxRowExample.participantId (.intVal vd)) ∧
    dxObsExample.observationDate =
      relative_day_to_date (.intVal 7) indexDate2016 :=
  (C8_dx_visit_fields gvoiNone indexDate2016 dxRowExample
    (dxObservations indexDate2016 dxRowExample none) dxObsExample rfl
    (by decide)).2 7 rfl

/-- C9: a vital-signs row with a recognized temperature type, a
present temperature value and a missing unit code gets its unit
inferred from the value — Celsius (586323) on [35, 40], Fahrenheit
(9289) on [95, 104] — and outside both ranges the record is skipped
with a warning, emitting nothing. -/
theorem C9_temp_unit_inference (ratio : String → String → ℚ) (gvoi : Gvoi)
    (idx : Int) (row : VitalRow) (k : Int) (v : ℚ) (tt : String) (cid : Int)
    (hk : row.vsdt = .intVal k) (ht : row.temp = some v)
    (hu : row.tempu = none) (htt : tempTypeOf ratio row = some tt)
    (hc : tempConceptIds tt = some cid) :
    (35 ≤ v → v ≤ 40 →
      (processVitalRow ratio gvoi idx row).1.head? =
        some (mkTempRow gvoi row (formatDate (idx + k)) tt cid 586323
          "degree Celsius" "C" v) ∧
      (mkTempRow gvoi row (formatDate (idx + k)) tt cid 586323
        "degree Celsius" "C" v).unitConceptId = some 586323) ∧
    (95 ≤ v → v ≤ 104 →
      (processVitalRow ratio gvoi idx row).1.head? =
        some (mkTempRow gvoi row (formatDate (idx + k)) tt cid 9289
          "degree Fahrenheit" "F" v) ∧
      (mkTempRow gvoi row (formatDate (idx + k)) tt cid 9289
        "degree Fahrenheit" "F" v).unitConceptId = some 9289) ∧
    (¬ (35 ≤ v ∧ v ≤ 40) → ¬ (95 ≤ v ∧ v ≤ 104) →
      processVitalRow ratio gvoi idx row =
        ([], [.cannotInferUnits v])) := by
  have hb : processVitalRow ratio gvoi idx row =
      vitalRowBody ratio gvoi row (formatDate (idx + k)) := by
    unfold processVitalRow
    rw [hk]
    rfl
  refine ⟨?_, ?_, ?_⟩
  · intro h35 h40
    have he : tempBlock ratio gvoi row (formatDate (idx + k)) =
        .emit (mkTempRow gvoi row (formatDate (idx + k)) tt cid 586323
          "degree Celsius" "C" v) := by
      unfold tempBlock
      simp only [ht, htt, hc, hu]
      rw [if_pos ⟨h35, h40⟩]
    rw [hb]
    unfold vitalRowBody
    rw [he]
    exact ⟨rfl, rfl⟩
  · intro h95 h104
    have hn : ¬ (35 ≤ v ∧ v ≤ 40) := by
      rintro ⟨_, h40⟩
      have : (95 : ℚ) ≤ 40 := le_trans h95 h40
      norm_num at this
    have he : tempBlock ratio gvoi row (formatDate (idx + k)) =
        .emit (mkTempRow gvoi row (formatDate (idx + k)) tt cid 9289
          "degree Fahrenheit" "F" v) := by
      unfold tempBlock
      simp only [ht, htt, hc, hu]
      rw [if_neg hn, if_pos ⟨h95, h104⟩]
    rw [hb]
    unfold vitalRowBody
    rw [he]
    exact ⟨rfl, rfl⟩
  · intro hn1 hn2
    have he : tempBlock ratio gvoi row (formatDate (idx + k)) =
        .skipRecord (.cannotInferUnits v) := by
      unfold tempBlock
      simp only [ht, htt, hc, hu]
      rw [if_neg hn1, if_neg hn2]
    rw [hb]
    unfold vitalRowBody
    rw [he]

/-- Witness for C9: the row with temperature 37 and no unit code gets
the Celsius unit concept inferred. -/
theorem C9_temp_unit_inference_witness :
    (processVitalRow ratioZero gvoiNone indexDate2016 vitalRowC).1.head? =
      some (mkTempRow gvoiNone vitalRowC (formatDate (indexDate2016 + 3))
        "Oral" 3006322 586323 "degree Celsius" "C" 37) :=
  ((C9_temp_unit_inference ratioZero gvoiNone indexDate2016 vitalRowC 3 37
      "Oral" 3006322 rfl rfl rfl rfl rfl).1 (by norm_num) (by norm_num)).1

/-- C10: an aalshxfx row whose participant is absent from the
subjects map, or whose group is neither "1" nor "17", produces no
condition rows and no log entry; condition rows exist only for groups
"1" and "17", and no branch of the row loop ever logs. -/
theorem C10_group_filter (sgMap cn : String → Option String) (idx : Int)
    (row : HxRow) :
    (sgMap row.participantId = none →
      aalshxfx_row sgMap cn idx row = .ok ([], [])) ∧
    (∀ g, sgMap row.participantId = some g → g ≠ "1" → g ≠ "17" →
      aalshxfx_row sgMap cn idx row = .ok ([], [])) ∧
    (∀ out, aalshxfx_row sgMap cn idx row = .ok out → out.1 ≠ [] →
      ∃ g, sgMap row.participantId = some g ∧ (g = "1" ∨ g = "17")) ∧
    (∀ out, aalshxfx_row sgMap cn idx row = .ok out → out.2 = []) := by
  refine ⟨?_, ?_, ?_, ?_⟩
  · intro hn
    unfold aalshxfx_row
    rw [hn]
  · intro g hg h1 h17
    unfold aalshxfx_row
    rw [hg]
    simp only [if_neg h1, if_neg h17]
  · intro out hout hne
    rcases hg : sgMap row.participantId with _ | g
    · unfold aalshxfx_row at hout
      rw [hg] at hout
      cases hout
      exact absurd rfl hne
    · by_cases h1 : g = "1"
      · exact ⟨g, rfl, Or.inl h1⟩
      · by_cases h17 : g = "17"
        · exact ⟨g, rfl, Or.inr h17⟩
        · unfold aalshxfx_row at hout
          rw [hg] at hout
          simp only [if_neg h1, if_neg h17] at hout
          cases hout
          exact absurd rfl hne
  · intro out hout
    unfold aalshxfx_row at hout
    rcases hg : sgMap row.participantId with _ | g <;>
      simp only [hg] at hout
    · cases hout
      rfl
    · by_cases h1 : g = "1"
      · rw [if_pos h1] at hout
        rcases ho : row.onsetdt with _ | d <;> simp only [ho] at hout
        · cases hout
          rfl
        · rcases hn : cn "2000000397" with _ | nm <;>
            simp only [hn] at hout
          · cases hout
          · cases hout
            rfl
      · rw [if_neg h1] at hout
        by_cases h17 : g = "17"
        · rw [if_pos h17] at hout
          rcases ho : row.onsetdt with _ | d <;> simp only [ho] at hout
          · cases hout
            rfl
          · rcases hn : cn "2000002019" with _ | nm <;>
              simp only [hn] at hout
            · cases hout
            · cases hout
              rfl
        · rw [if_neg h17] at hout
          cases hout
          rfl

/-- Witness for C10: participant "P9" is mapped to group "5", so the
row yields no condition rows and no log entries. -/
theorem C10_group_filter_witness :
    aalshxfx_row sgMapExample (fun _ => none) indexDate2016 hxRowExample =
      .ok ([], []) :=
  (C10_group_filter sgMapExample (fun _ => none) indexDate2016
    hxRowExample).2.1 "5" rfl (by decide) (by decide)

